import Mathlib

/-!
A verification development for two SQL-fragment generators of the
FootballDataEngeneering repository:

* `src/includes/generate_coalesce.js` — `generateCoalesceColumns`, which
  asks the warehouse for the column list of the reference table
  `new_stats_rows` (excluding `player_` and `source_file`) and emits one
  `COALESCE(...) AS col` expression per remaining column;
* `src/includes/positions_columns.js` — the static `positionColumns`
  catalog with `getColumnsForPosition` and `generatePositionSelect`.

The warehouse read made by `generateCoalesceColumns` is modelled by
passing the reference table's full column list (`schema`) explicitly and
applying the query's `NOT IN` filter to it.
-/

/-- One row of the `SELECT column_name FROM ... INFORMATION_SCHEMA.COLUMNS`
result set: a record with a single `column_name` field. -/
structure ColumnRow where
  column_name : String
deriving DecidableEq

/-- Models the `retrieve` call in `generateCoalesceColumns`
(`src/includes/generate_coalesce.js`, lines 2-9): the metadata query
returns one `column_name` row per column of the reference table
`new_stats_rows`, keeping only the columns whose name is
`NOT IN ('player_', 'source_file')`.  The reference table's full column
list (warehouse state) enters as the `schema` argument. -/
def retrieveNewStatsRowsColumns (schema : List String) : List ColumnRow :=
  (schema.filter fun c => !(c == "player_" || c == "source_file")).map ColumnRow.mk

/-- `generateCoalesceColumns` from `src/includes/generate_coalesce.js`
(lines 1-15): for each row of the metadata query build
`COALESCE(t1.col, ..., tn.col) AS col` over the tables in input order,
then join the per-column expressions with `',\n'`. -/
def generateCoalesceColumns (schema : List String) (tables : List String) : String :=
  let columns := retrieveNewStatsRowsColumns schema
  let coalesceStatements := columns.map fun column =>
    "COALESCE(" ++
      String.intercalate ", " (tables.map fun table => table ++ "." ++ column.column_name) ++
      ") AS " ++ column.column_name
  String.intercalate ",\n" coalesceStatements

/-- The column names, in order, for which `generateCoalesceColumns` emits an
expression: the `column_name` field of each row the metadata query returns. -/
def emittedCoalesceColumns (schema : List String) : List String :=
  (retrieveNewStatsRowsColumns schema).map ColumnRow.column_name

/-- Modelled from the spec's wording (§4.1): the per-column expression
`COALESCE(<t1>.<c>, <t2>.<c>, ..., <tn>.<c>) AS <c>`, the tables taken in
input order, the arguments joined with a comma and a space. -/
def specCoalesceExpr (tables : List String) (c : String) : String :=
  "COALESCE(" ++ String.intercalate ", " (tables.map fun t => t ++ "." ++ c) ++
    ") AS " ++ c

/-- The static position catalog `positionColumns` from
`src/includes/positions_columns.js` (lines 3-67), as an ordered
key/value table. -/
def positionColumns : List (String × List String) :=
  [("Goalkeeper",
    ["shot_stopping_saves", "shot_stopping_sota", "shot_stopping_psxg",
     "shot_stopping_ga", "crosses_stp", "crosses_opp", "sweeper_#opa",
     "sweeper_avgdist", "total_cmp%", "goal_kicks_launch%", "minutes"]),
   ("Centerback",
    ["aerial_duels_won%", "clr_", "int_", "blocks_blocks", "tackles_tkl",
     "tackles_tklw", "minutes"]),
   ("Fullback",
    ["crosses_crs", "tackles_tkl", "tackles_tklw", "tackles_def_3rd",
     "tackles_mid_3rd", "tackles_att_3rd", "int_", "minutes"]),
   ("Midfielder",
    ["total_cmp%", "tackles_tkl", "int_", "tackles_mid_3rd", "xag_",
     "1_3_", "minutes"]),
   ("Winger",
    ["crosses_crs", "xag_", "xa_", "performance_og", "performance_recov",
     "minutes"]),
   ("Striker",
    ["performance_pkwon", "performance_pkcon", "aerial_duels_won%",
     "aerial_duels_won", "challenges_att_3rd", "ppa_", "minutes"])]

/-- `getColumnsForPosition` from `src/includes/positions_columns.js`
(lines 70-72): `positionColumns[position] || []` — look the label up in the
catalog, an unknown label giving the empty list. -/
def getColumnsForPosition (position : String) : List String :=
  (positionColumns.lookup position).getD []

/-- `generatePositionSelect` from `src/includes/positions_columns.js`
(lines 75-78): map each column to itself and join with `', '`. -/
def generatePositionSelect (position : String) : String :=
  let columns := getColumnsForPosition position
  String.intercalate ", " (columns.map fun col => col)

/-- The keys of the position catalog, in order. -/
def positionLabels : List String := positionColumns.map Prod.fst

/-! ## Helper lemmas -/

theorem generateCoalesceColumns_eq (schema tables : List String) :
    generateCoalesceColumns schema tables =
      String.intercalate ",\n"
        ((emittedCoalesceColumns schema).map (specCoalesceExpr tables)) := by
  simp only [generateCoalesceColumns, emittedCoalesceColumns, List.map_map]
  rfl

theorem emittedCoalesceColumns_eq (schema : List String) :
    emittedCoalesceColumns schema =
      schema.filter fun c => !(c == "player_" || c == "source_file") := by
  simp only [emittedCoalesceColumns, retrieveNewStatsRowsColumns, List.map_map]
  exact List.map_id' _

theorem mem_emittedCoalesceColumns (schema : List String) (c : String) :
    c ∈ emittedCoalesceColumns schema ↔
      c ∈ schema ∧ c ≠ "player_" ∧ c ≠ "source_file" := by
  rw [emittedCoalesceColumns_eq]
  simp [List.mem_filter, not_or]

theorem specCoalesceExpr_nil (c : String) :
    specCoalesceExpr [] c = "COALESCE() AS " ++ c := by
  have h : ("COALESCE(" ++
      String.intercalate ", " (([] : List String).map fun t => t ++ "." ++ c) ++
      ") AS ") = "COALESCE() AS " := rfl
  calc specCoalesceExpr [] c
      = ("COALESCE(" ++
          String.intercalate ", " (([] : List String).map fun t => t ++ "." ++ c) ++
          ") AS ") ++ c := rfl
    _ = "COALESCE() AS " ++ c := by rw [h]

theorem getColumnsForPosition_of_not_mem (label : String)
    (h : label ∉ positionLabels) : getColumnsForPosition label = [] := by
  simp only [positionLabels, positionColumns, List.map, List.mem_cons,
    List.not_mem_nil, or_false, not_or] at h
  obtain ⟨h1, h2, h3, h4, h5, h6⟩ := h
  have e1 : (label == "Goalkeeper") = false := beq_eq_false_iff_ne.mpr h1
  have e2 : (label == "Centerback") = false := beq_eq_false_iff_ne.mpr h2
  have e3 : (label == "Fullback") = false := beq_eq_false_iff_ne.mpr h3
  have e4 : (label == "Midfielder") = false := beq_eq_false_iff_ne.mpr h4
  have e5 : (label == "Winger") = false := beq_eq_false_iff_ne.mpr h5
  have e6 : (label == "Striker") = false := beq_eq_false_iff_ne.mpr h6
  simp [getColumnsForPosition, positionColumns, List.lookup, e1, e2, e3, e4, e5, e6]

/-! ## Claim theorems -/

/-- C1: for every non-empty table list, `generateCoalesceColumns` emits, for
each column `c` the introspector returns after exclusion, the expression
`COALESCE(t1.c, t2.c, ..., tn.c) AS c` with the tables in input order, and
joins the per-column expressions with a comma followed by a newline. -/
theorem generateCoalesceColumns_emits_in_order (schema tables : List String)
    (h : tables ≠ []) :
    generateCoalesceColumns schema tables =
      String.intercalate ",\n"
        ((emittedCoalesceColumns schema).map (specCoalesceExpr tables)) :=
  generateCoalesceColumns_eq schema tables

theorem generateCoalesceColumns_emits_in_order_witness :
    (["tA", "tB"] : List String) ≠ [] ∧
    generateCoalesceColumns ["x", "player_", "y"] ["tA", "tB"] =
      String.intercalate ",\n"
        ((emittedCoalesceColumns ["x", "player_", "y"]).map
          (specCoalesceExpr ["tA", "tB"])) ∧
    generateCoalesceColumns ["x", "player_", "y"] ["tA", "tB"] =
      "COALESCE(tA.x, tB.x) AS x,\nCOALESCE(tA.y, tB.y) AS y" :=
  ⟨by decide, generateCoalesceColumns_emits_in_order _ _ (by decide), by decide⟩

/-- C2: the column set of `generateCoalesceColumns`'s output is exactly the
reference-table columns minus `player_` and `source_file`: no excluded
column is referenced, no column is invented, no other column is dropped. -/
theorem generateCoalesceColumns_column_set (schema tables : List String)
    (c : String) :
    generateCoalesceColumns schema tables =
      String.intercalate ",\n"
        ((emittedCoalesceColumns schema).map (specCoalesceExpr tables)) ∧
    (c ∈ emittedCoalesceColumns schema ↔
      c ∈ schema ∧ c ≠ "player_" ∧ c ≠ "source_file") :=
  ⟨generateCoalesceColumns_eq schema tables, mem_emittedCoalesceColumns schema c⟩

/-- C3: `generatePositionSelect label` is `getColumnsForPosition label`
joined with a comma and a space; an empty column list yields empty text. -/
theorem generatePositionSelect_is_join (label : String) :
    generatePositionSelect label =
      String.intercalate ", " (getColumnsForPosition label) ∧
    (getColumnsForPosition label = [] → generatePositionSelect label = "") := by
  constructor
  · simp only [generatePositionSelect]
    exact congrArg _ (List.map_id' _)
  · intro h
    simp only [generatePositionSelect, h]
    rfl

theorem generatePositionSelect_is_join_witness :
    generatePositionSelect "Unknown" =
      String.intercalate ", " (getColumnsForPosition "Unknown") ∧
    generatePositionSelect "Unknown" = "" :=
  ⟨(generatePositionSelect_is_join "Unknown").1,
   (generatePositionSelect_is_join "Unknown").2 (by decide)⟩

/-- C4: `getColumnsForPosition "Goalkeeper"` returns exactly the eleven
goalkeeper columns, in catalog order. -/
theorem getColumnsForPosition_goalkeeper :
    getColumnsForPosition "Goalkeeper" =
      ["shot_stopping_saves", "shot_stopping_sota", "shot_stopping_psxg",
       "shot_stopping_ga", "crosses_stp", "crosses_opp", "sweeper_#opa",
       "sweeper_avgdist", "total_cmp%", "goal_kicks_launch%", "minutes"] := by
  decide

/-- C5: for every label that is not a key of the position catalog,
`getColumnsForPosition` returns the empty list (a normal outcome, the
function is total and never fails). -/
theorem getColumnsForPosition_unknown_label (label : String)
    (h : label ∉ positionLabels) :
    getColumnsForPosition label = [] :=
  getColumnsForPosition_of_not_mem label h

theorem getColumnsForPosition_unknown_label_witness :
    "Unknown" ∉ positionLabels ∧ getColumnsForPosition "Unknown" = [] :=
  ⟨by decide, getColumnsForPosition_unknown_label "Unknown" (by decide)⟩

/-- C6: if the reference schema after exclusion has no columns, then
`generateCoalesceColumns` returns empty text, whatever `tables` is. -/
theorem generateCoalesceColumns_empty_schema (schema tables : List String)
    (h : emittedCoalesceColumns schema = []) :
    generateCoalesceColumns schema tables = "" := by
  rw [generateCoalesceColumns_eq, h]
  rfl

theorem generateCoalesceColumns_empty_schema_witness :
    emittedCoalesceColumns ["player_", "source_file"] = [] ∧
    generateCoalesceColumns ["player_", "source_file"] ["t1"] = "" :=
  ⟨by decide, generateCoalesceColumns_empty_schema _ _ (by decide)⟩

/-- C7: `generatePositionSelect "Centerback"` returns exactly the text
`aerial_duels_won%, clr_, int_, blocks_blocks, tackles_tkl, tackles_tklw,
minutes`. -/
theorem generatePositionSelect_centerback :
    generatePositionSelect "Centerback" =
      "aerial_duels_won%, clr_, int_, blocks_blocks, tackles_tkl, tackles_tklw, minutes" := by
  decide

/-- C8: with an empty `tables` input, `generateCoalesceColumns` does not
guard or fail: every `COALESCE` degenerates to an empty argument list,
emitting `COALESCE() AS c` for each non-excluded column `c`. -/
theorem generateCoalesceColumns_empty_tables (schema : List String) :
    generateCoalesceColumns schema [] =
      String.intercalate ",\n"
        ((emittedCoalesceColumns schema).map fun c => "COALESCE() AS " ++ c) := by
  rw [generateCoalesceColumns_eq]
  have h : specCoalesceExpr ([] : List String) = fun c => "COALESCE() AS " ++ c :=
    funext specCoalesceExpr_nil
  rw [h]

/-- C9: every key of the position catalog maps to a column list that
contains `minutes` together with at least one other column. -/
theorem known_label_columns_nonempty (label : String)
    (h : label ∈ positionLabels) :
    "minutes" ∈ getColumnsForPosition label ∧
      ∃ c ∈ getColumnsForPosition label, c ≠ "minutes" := by
  have hl : label = "Goalkeeper" ∨ label = "Centerback" ∨ label = "Fullback" ∨
      label = "Midfielder" ∨ label = "Winger" ∨ label = "Striker" := by
    simpa [positionLabels, positionColumns] using h
  rcases hl with rfl | rfl | rfl | rfl | rfl | rfl <;> decide

theorem known_label_columns_nonempty_witness :
    "Winger" ∈ positionLabels ∧
    ("minutes" ∈ getColumnsForPosition "Winger" ∧
      ∃ c ∈ getColumnsForPosition "Winger", c ≠ "minutes") :=
  ⟨by decide, known_label_columns_nonempty "Winger" (by decide)⟩

/-- C10: the catalog's keys are exactly the six labels Goalkeeper,
Centerback, Fullback, Midfielder, Winger, Striker; `getColumnsForPosition`
returns a non-empty list exactly on those keys; and each key's list ends in
`minutes` and has no duplicate column names. -/
theorem catalog_keys_exact (label : String) :
    positionLabels =
      ["Goalkeeper", "Centerback", "Fullback", "Midfielder", "Winger", "Striker"] ∧
    (getColumnsForPosition label ≠ [] ↔ label ∈ positionLabels) ∧
    (label ∈ positionLabels →
      (getColumnsForPosition label).getLast? = some "minutes" ∧
        (getColumnsForPosition label).Nodup) := by
  refine ⟨by decide, ⟨fun hne => ?_, fun hmem => ?_⟩, fun hmem => ?_⟩
  · by_contra hnotmem
    exact hne (getColumnsForPosition_of_not_mem label hnotmem)
  · have hl : label = "Goalkeeper" ∨ label = "Centerback" ∨ label = "Fullback" ∨
        label = "Midfielder" ∨ label = "Winger" ∨ label = "Striker" := by
      simpa [positionLabels, positionColumns] using hmem
    rcases hl with rfl | rfl | rfl | rfl | rfl | rfl <;> decide
  · have hl : label = "Goalkeeper" ∨ label = "Centerback" ∨ label = "Fullback" ∨
        label = "Midfielder" ∨ label = "Winger" ∨ label = "Striker" := by
      simpa [positionLabels, positionColumns] using hmem
    rcases hl with rfl | rfl | rfl | rfl | rfl | rfl <;> decide

theorem catalog_keys_exact_witness :
    getColumnsForPosition "Goalkeeper" ≠ [] ∧
    (getColumnsForPosition "Goalkeeper").getLast? = some "minutes" ∧
    (getColumnsForPosition "Goalkeeper").Nodup := by
  have h := catalog_keys_exact "Goalkeeper"
  exact ⟨h.2.1.mpr (by decide), (h.2.2 (by decide)).1, (h.2.2 (by decide)).2⟩
